import Mathlib

/-!
Verification of the KNN model-utility layer (src/ela/modelUtilities.py).

The module is a thin orchestration layer over an external KNN
classification library (sklearn), an external geo collaborator (the ela
package) and an external map renderer (folium).  We embed the module with
the external collaborators as abstract parameters:

* the classification service is an abstract `fit` function producing a
  deterministic fitted classifier (a function from query points to labels),
  together with a `score` that returns the mean accuracy of the fitted
  classifier on a sample, exactly as sklearn documents it;
* labeled point tables are rows of (lat, lon, type) plus an optional
  predicted-type column `pred` (dataframe column added by assignment);
* in-place dataframe mutation is made explicit: every embedded function
  returns the post-state of the tables it received, and a trace of the
  externally visible effects (classifier fits, geo parsing, rendering)
  in the order the source performs them.

Coordinates and error rates are rationals; Python floats never leave the
range where the claims are about exact fractions (counts over counts).
-/

namespace ModelUtilities

/-- A geographic point: latitude and longitude. -/
structure Point where
  lat : ℚ
  lon : ℚ
deriving DecidableEq, Repr

/-- An energy-type label (a categorical string). -/
abbrev Label := String

/-- One row of a labeled point table: coordinates and the actual type. -/
structure Row where
  lat : ℚ
  lon : ℚ
  type : Label
deriving DecidableEq, Repr

/-- A labeled point table (pandas dataframe with columns lat, lon, type and,
once written, pred).  The `pred` column is `none` until some call assigns
it; when present it is row-aligned with `rows`. -/
structure Table where
  rows : List Row
  pred : Option (List Label)
deriving DecidableEq, Repr

/-- The KNN weighting scheme accepted by the classification service. -/
inductive Weights where
  | uniform
  | distance
deriving DecidableEq, Repr

/-- The lat/lon coordinates of a table, in row order
(the dataframe selection `df[[lat, lon]]`). -/
def coords (t : Table) : List Point :=
  t.rows.map fun r => ⟨r.lat, r.lon⟩

/-- The actual-type column of a table, in row order (`np.ravel(df.type)`). -/
def types (t : Table) : List Label :=
  t.rows.map Row.type

/-- The (coordinates, label) training pairs of a table: the two arguments
of `clf.fit` zipped together. -/
def trainPairs (t : Table) : List (Point × Label) :=
  (coords t).zip (types t)

/-- A fitted classifier, as the module sees it: a deterministic map from a
query point to a predicted label.  The KNN algorithm itself is owned by the
external library and is out of scope, so the fitted model is abstract. -/
abbrev Classifier := Point → Label

/-- The external classification service: given the neighbor count, the
weighting scheme and the training pairs, produce a fitted classifier
(`KNeighborsClassifier(n_neighbors=k, weights=w).fit(X, y)`). -/
abbrev FitFn := Nat → Weights → List (Point × Label) → Classifier

/-- `clf.score(X, y)`: the mean accuracy of the predictions of `clf` on the
sample points `X` against the true labels `y` (sklearn contract).  The
denominator is the number of sample points. -/
def score (clf : Classifier) (X : List Point) (y : List Label) : ℚ :=
  (((X.zip y).countP fun p => decide (clf p.1 = p.2) : ℕ) : ℚ) / (X.length : ℚ)

/-- An externally visible effect of the module, in the order performed. -/
inductive Effect where
  /-- A classifier was instantiated and fit on the given training pairs. -/
  | fitClassifier (k : Nat) (w : Weights) (train : List (Point × Label))
  /-- The geo source was parsed into a dataframe (`ela.geojson_to_df`). -/
  | geojsonToDf
  /-- Representative points were computed (`ela.geojson_centers`). -/
  | geojsonCenters
  /-- Predicted types were mapped to display colors. -/
  | predToColors
  /-- A folium map layer was constructed. -/
  | foliumRender
deriving DecidableEq, Repr

/-- Result of `predict_types`: the post-state of the two tables and the
effect trace. -/
structure PredictTypesOut where
  train_df : Table
  test_df : Table
  trace : List Effect
deriving Repr

/-- `predict_types(k, weights, train_df, test_df)` (source lines 32-65):
fit a KNN classifier on the training coordinates against the training
labels, then assign the `pred` column of both tables to the predictions of
the fitted classifier on each table viewed through its own coordinates. -/
def predict_types (fit : FitFn) (k : Nat) (weights : Weights)
    (train_df test_df : Table) : PredictTypesOut :=
  let clf := fit k weights (trainPairs train_df)
  let train1 : Table := { train_df with pred := some ((coords train_df).map clf) }
  let test1 : Table := { test_df with pred := some ((coords test_df).map clf) }
  { train_df := train1, test_df := test1,
    trace := [Effect.fitClassifier k weights (trainPairs train_df)] }

/-- Result of `try_k`: the two error rates, the post-state of the two
tables and the effect trace. -/
structure TryKOut where
  train_error : ℚ
  test_error : ℚ
  train_df : Table
  test_df : Table
  trace : List Effect
deriving Repr

/-- `try_k(k, weights, train_df, test_df)` (source lines 84-120): fit a KNN
classifier on the training data, return `1 - score` on the training sample
and `1 - score` on the testing sample.  The body contains no assignment to
either dataframe, so both tables pass through unchanged. -/
def try_k (fit : FitFn) (k : Nat) (weights : Weights)
    (train_df test_df : Table) : TryKOut :=
  let x_train := coords train_df
  let y_train := types train_df
  let clf := fit k weights (x_train.zip y_train)
  let x_test := coords test_df
  let y_test := types test_df
  let train_error := 1 - score clf x_train y_train
  let test_error := 1 - score clf x_test y_test
  { train_error := train_error, test_error := test_error,
    train_df := train_df, test_df := test_df,
    trace := [Effect.fitClassifier k weights (x_train.zip y_train)] }

/-- One row of the error array returned by `try_k_range`: the array is
allocated as `np.zeros((len(k_list), 3))`, so it has exactly three columns,
all stored as floats (the K value is cast to float on assignment). -/
structure ErrorRow where
  k : ℚ
  train_error : ℚ
  test_error : ℚ
deriving DecidableEq, Repr

/-- Result of `try_k_range`: the error table, the post-state of the two
tables and the effect trace. -/
structure TryKRangeOut where
  errors : List ErrorRow
  train_df : Table
  test_df : Table
  trace : List Effect
deriving Repr

/-- `try_k_range(k_list, weights, train_df, test_df)` (source lines
123-156): for each index `i` of `k_list` in order, call `try_k` with
`k_list[i]` and the tables as `try_k` left them, and record the row
`(k_list[i], train_error, test_error)`. -/
def try_k_range (fit : FitFn) (k_list : List Nat) (weights : Weights)
    (train_df test_df : Table) : TryKRangeOut :=
  match k_list with
  | [] => { errors := [], train_df := train_df, test_df := test_df, trace := [] }
  | k :: ks =>
    let r := try_k fit k weights train_df test_df
    let rest := try_k_range fit ks weights r.train_df r.test_df
    { errors := { k := (k : ℚ), train_error := r.train_error,
                  test_error := r.test_error } :: rest.errors,
      train_df := rest.train_df, test_df := rest.test_df,
      trace := r.trace ++ rest.trace }

/-- `plot_knn_error(k_max, weights, train_df, test_df)` (source lines
159-191): evaluate `try_k_range(list(range(1, k_max)), ...)`, which is the
K values `1, 2, ..., k_max - 1`, then scatter-plot the two error series.
The plotting calls read only the result array, so the embedding returns the
`try_k_range` result; the rendered figure is outside the data model. -/
def plot_knn_error (fit : FitFn) (k_max : Nat) (weights : Weights)
    (train_df test_df : Table) : TryKRangeOut :=
  try_k_range fit (List.range' 1 (k_max - 1)) weights train_df test_df

/-- One geographic boundary feature: its identifier and its representative
point (the `centers` attribute written by `ela.geojson_centers`). -/
structure GeoFeature where
  id : String
  center : Point
deriving DecidableEq, Repr

/-- The feature dataframe produced by `ela.geojson_to_df` after
`ela.geojson_centers`: boundary features plus the two optional
predicted-type columns written by `geojson_predict_k`. -/
structure GeoDf where
  features : List GeoFeature
  pred_gen : Option (List Label)
  pred_stor : Option (List Label)
deriving DecidableEq, Repr

/-- Result of `geojson_predict_k`: the post-state of the feature dataframe
and the effect trace. -/
structure GeojsonPredictOut where
  geo_df : GeoDf
  trace : List Effect
deriving Repr

/-- `geojson_predict_k(geo_df, gen_train, stor_train, k, weights)` (source
lines 194-242): fit one classifier on the generation training table and one
on the storage training table, then iterate over the features in order,
querying both classifiers at each representative point, and assign the
accumulated predictions to the new columns `pred_gen` and `pred_stor`. -/
def geojson_predict_k (fit : FitFn) (geo_df : GeoDf)
    (gen_train stor_train : Table) (k : Nat) (weights : Weights) :
    GeojsonPredictOut :=
  let gen_clf := fit k weights (trainPairs gen_train)
  let stor_clf := fit k weights (trainPairs stor_train)
  let gens := geo_df.features.map fun f => gen_clf f.center
  let stors := geo_df.features.map fun f => stor_clf f.center
  { geo_df := { geo_df with pred_gen := some gens, pred_stor := some stors },
    trace := [Effect.fitClassifier k weights (trainPairs gen_train),
              Effect.fitClassifier k weights (trainPairs stor_train)] }

/-- An opaque GeoJSON source object; the module never inspects it, only
hands it to the geo collaborator and to folium. -/
abbrev GeoSource := String

/-- The folium GeoJson overlay layer built by `prediction_map_k`: the geo
source, the per-feature-id fill color lookup, the fixed fill opacity 0.4
and the fixed border weight 0. -/
structure FoliumLayer where
  source : GeoSource
  fillColor : String → String
  fillOpacity : ℚ
  weight : Nat

/-- The external collaborators consumed by `prediction_map_k`: the
classification service, the geo collaborator of the ela package, and the
two process-wide fixed training tables `ela.gen_data` / `ela.stor_data`. -/
structure Collaborators where
  fit : FitFn
  geojson_to_df : GeoSource → GeoDf
  geojson_centers : GeoDf → GeoDf
  pred_gen_to_colors : GeoDf → (String → String)
  pred_stor_to_colors : GeoDf → (String → String)
  gen_data : Table
  stor_data : Table

/-- `prediction_map_k(geoj, k, weights, gen_or_stor)` (source lines
245-292), with each external call recorded in the trace in source order:
parse the geo source, compute the representative points, run
`geojson_predict_k` on the fixed training tables, and only then branch on
`gen_or_stor`; an unrecognized value raises
`ValueError("Enter either gen or stor.")` at that point, after the
parsing and the two fits have already happened. -/
def prediction_map_k (C : Collaborators) (geoj : GeoSource) (k : Nat)
    (weights : Weights) (gen_or_stor : String) :
    Except String FoliumLayer × List Effect :=
  let geo_df0 := C.geojson_to_df geoj
  let geo_df1 := C.geojson_centers geo_df0
  let p := geojson_predict_k C.fit geo_df1 C.gen_data C.stor_data k weights
  let pre := Effect.geojsonToDf :: Effect.geojsonCenters :: p.trace
  if gen_or_stor = "gen" then
    let map_colors := C.pred_gen_to_colors p.geo_df
    (Except.ok { source := geoj, fillColor := map_colors,
                 fillOpacity := 2 / 5, weight := 0 },
     pre ++ [Effect.predToColors, Effect.foliumRender])
  else if gen_or_stor = "stor" then
    let map_colors := C.pred_stor_to_colors p.geo_df
    (Except.ok { source := geoj, fillColor := map_colors,
                 fillOpacity := 2 / 5, weight := 0 },
     pre ++ [Effect.predToColors, Effect.foliumRender])
  else
    (Except.error "Enter either gen or stor.", pre)

/-- Stated from the spec wording for `evaluateError`: the fraction of rows
of a table whose predicted type (the fitted classifier queried at the row
coordinates) equals the actual type.  Compared against the embedded
`try_k`, which delegates to the external `score`. -/
def matchFraction (clf : Classifier) (t : Table) : ℚ :=
  ((t.rows.countP fun r => decide (clf ⟨r.lat, r.lon⟩ = r.type) : ℕ) : ℚ)
    / (t.rows.length : ℚ)

/-- The external mean-accuracy score of a classifier on the coordinates and
labels of a table is exactly the match fraction of that table. -/
theorem score_coords_types (clf : Classifier) (t : Table) :
    score clf (coords t) (types t) = matchFraction clf t := by
  unfold score matchFraction coords types
  rw [List.zip_map', List.countP_map, List.length_map]
  rfl

/-- The match fraction is nonnegative. -/
theorem matchFraction_nonneg (clf : Classifier) (t : Table) :
    0 ≤ matchFraction clf t := by
  unfold matchFraction
  positivity

/-- On a nonempty table the match fraction is at most one. -/
theorem matchFraction_le_one (clf : Classifier) (t : Table)
    (h : t.rows ≠ []) : matchFraction clf t ≤ 1 := by
  unfold matchFraction
  have hlen : 0 < (t.rows.length : ℚ) := by
    exact_mod_cast List.length_pos.mpr h
  rw [div_le_one hlen]
  exact_mod_cast List.countP_le_length _

/-- Shared shape lemma for `try_k_range`: one error row and one classifier
fit per element of the K list, in input order, with the first column the
input K sequence cast to float. -/
theorem try_k_range_spec (fit : FitFn) (weights : Weights) (tr te : Table)
    (k_list : List Nat) :
    (try_k_range fit k_list weights tr te).errors.length = k_list.length ∧
    (try_k_range fit k_list weights tr te).errors.map ErrorRow.k
      = k_list.map (fun k => (k : ℚ)) ∧
    (try_k_range fit k_list weights tr te).trace
      = k_list.map (fun k => Effect.fitClassifier k weights (trainPairs tr)) := by
  induction k_list with
  | nil => exact ⟨rfl, rfl, rfl⟩
  | cons k ks ih =>
    refine ⟨?_, ?_, ?_⟩ <;>
      simp [try_k_range, try_k, trainPairs, ih.1, ih.2.1, ih.2.2]

/-- A one-row generation training table for concrete evaluations. -/
def genTbl : Table :=
  { rows := [{ lat := 0, lon := 0, type := "solar" }], pred := none }

/-- A one-row storage training table for concrete evaluations. -/
def storTbl : Table :=
  { rows := [{ lat := 1, lon := 1, type := "battery" }], pred := none }

/-- A concrete deterministic classification service for witnesses: the
fitted classifier answers with the label of the first training pair. -/
def constFit : FitFn :=
  fun _ _ pairs _ => (pairs.head?.map Prod.snd).getD "none"

/-- Concrete external collaborators for witnesses: one Washington-state
feature, constant color maps, and the two one-row training tables standing
for the fixed `ela.gen_data` / `ela.stor_data`. -/
def trivialCollab : Collaborators :=
  { fit := constFit
    geojson_to_df := fun _ =>
      { features := [{ id := "WA", center := { lat := 47, lon := -120 } }],
        pred_gen := none, pred_stor := none }
    geojson_centers := id
    pred_gen_to_colors := fun _ _ => "blue"
    pred_stor_to_colors := fun _ _ => "red"
    gen_data := genTbl
    stor_data := storTbl }

/-- C1 (counterexample): the claim says `prediction_map_k` fails on an
invalid `gen_or_stor` before any classifier is fit and before any
geo-parsing.  At the concrete input below the call does fail with the
invalid-argument error, yet its effect trace already contains a classifier
fit and the geo parse: the validity check sits after those steps in the
source, so the claim as stated is false. -/
theorem C1_counterexample :
    (prediction_map_k trivialCollab "usa-states" 1 Weights.uniform "bogus").1
      = Except.error "Enter either gen or stor." ∧
    Effect.fitClassifier 1 Weights.uniform (trainPairs trivialCollab.gen_data)
      ∈ (prediction_map_k trivialCollab "usa-states" 1 Weights.uniform "bogus").2 ∧
    Effect.geojsonToDf
      ∈ (prediction_map_k trivialCollab "usa-states" 1 Weights.uniform "bogus").2 := by
  refine ⟨rfl, ?_, ?_⟩ <;> decide

/-- C1 (amended): for every `gen_or_stor` argument not equal to "gen" or
"stor", `prediction_map_k` raises the invalid-argument error, but only
after parsing the geo source, computing the representative points and
fitting both classifiers; no color mapping and no rendering occur. -/
theorem C1_theorem (C : Collaborators) (geoj : GeoSource) (k : Nat)
    (weights : Weights) (gen_or_stor : String)
    (hg : gen_or_stor ≠ "gen") (hs : gen_or_stor ≠ "stor") :
    (prediction_map_k C geoj k weights gen_or_stor).1
      = Except.error "Enter either gen or stor." ∧
    (prediction_map_k C geoj k weights gen_or_stor).2
      = [Effect.geojsonToDf, Effect.geojsonCenters,
         Effect.fitClassifier k weights (trainPairs C.gen_data),
         Effect.fitClassifier k weights (trainPairs C.stor_data)] := by
  unfold prediction_map_k
  simp [hg, hs, geojson_predict_k]

/-- C1 (witness): the amended statement instantiated at the concrete
collaborators and the invalid argument "bogus". -/
theorem C1_witness :
    (("bogus" : String) ≠ "gen" ∧ ("bogus" : String) ≠ "stor") ∧
    ((prediction_map_k trivialCollab "usa-states" 2 Weights.distance "bogus").1
       = Except.error "Enter either gen or stor." ∧
     (prediction_map_k trivialCollab "usa-states" 2 Weights.distance "bogus").2
       = [Effect.geojsonToDf, Effect.geojsonCenters,
          Effect.fitClassifier 2 Weights.distance (trainPairs trivialCollab.gen_data),
          Effect.fitClassifier 2 Weights.distance (trainPairs trivialCollab.stor_data)]) :=
  ⟨⟨by decide, by decide⟩,
   C1_theorem trivialCollab "usa-states" 2 Weights.distance "bogus"
     (by decide) (by decide)⟩

/-- C2: for every `k_max`, `plot_knn_error` evaluates exactly the K values
`1, 2, ..., k_max - 1` in ascending order (`List.range' 1 (k_max - 1)`),
both as the classifier fits performed and as the first column of the error
rows; in particular `k_max = 5` yields exactly K = 1, 2, 3, 4 (four error
points) and K = 5 is not evaluated. -/
theorem C2_theorem (fit : FitFn) (weights : Weights) (tr te : Table) :
    (∀ k_max : Nat,
       (plot_knn_error fit k_max weights tr te).trace
         = (List.range' 1 (k_max - 1)).map
             (fun k => Effect.fitClassifier k weights (trainPairs tr)) ∧
       (plot_knn_error fit k_max weights tr te).errors.map ErrorRow.k
         = (List.range' 1 (k_max - 1)).map (fun k => (k : ℚ))) ∧
    (plot_knn_error fit 5 weights tr te).errors.map ErrorRow.k
      = [(1 : ℚ), 2, 3, 4] ∧
    (plot_knn_error fit 5 weights tr te).errors.length = 4 := by
  have h5 := try_k_range_spec fit weights tr te (List.range' 1 4)
  refine ⟨fun k_max => ?_, ?_, ?_⟩
  · have h := try_k_range_spec fit weights tr te (List.range' 1 (k_max - 1))
    exact ⟨h.2.2, h.2.1⟩
  · have := h5.2.1
    simpa [plot_knn_error, List.range'] using this
  · have := h5.1
    simpa [plot_knn_error, List.range'] using this

/-- C3: `try_k_range` produces exactly one error row per element of the K
list, with the first column equal to the input K sequence in order, and
performs exactly one classifier fit per occurrence of each K (duplicates
are re-evaluated, not deduplicated). -/
theorem C3_theorem (fit : FitFn) (k_list : List Nat) (weights : Weights)
    (tr te : Table) :
    (try_k_range fit k_list weights tr te).errors.length = k_list.length ∧
    (try_k_range fit k_list weights tr te).errors.map ErrorRow.k
      = k_list.map (fun k => (k : ℚ)) ∧
    (try_k_range fit k_list weights tr te).trace
      = k_list.map (fun k => Effect.fitClassifier k weights (trainPairs tr)) :=
  try_k_range_spec fit weights tr te k_list

/-- C4: for every K at least 1, either weighting and nonempty tables,
`try_k` returns the training error `1 -` (fraction of training rows whose
predicted type equals the actual type) and likewise the testing error, and
both values lie in the interval from 0 to 1. -/
theorem C4_theorem (fit : FitFn) (k : Nat) (weights : Weights)
    (train_df test_df : Table) (hk : 1 ≤ k)
    (htr : train_df.rows ≠ []) (hte : test_df.rows ≠ []) :
    (try_k fit k weights train_df test_df).train_error
      = 1 - matchFraction (fit k weights (trainPairs train_df)) train_df ∧
    (try_k fit k weights train_df test_df).test_error
      = 1 - matchFraction (fit k weights (trainPairs train_df)) test_df ∧
    0 ≤ (try_k fit k weights train_df test_df).train_error ∧
    (try_k fit k weights train_df test_df).train_error ≤ 1 ∧
    0 ≤ (try_k fit k weights train_df test_df).test_error ∧
    (try_k fit k weights train_df test_df).test_error ≤ 1 := by
  have htrain : (try_k fit k weights train_df test_df).train_error
      = 1 - matchFraction (fit k weights (trainPairs train_df)) train_df := by
    show 1 - score (fit k weights (trainPairs train_df)) (coords train_df)
        (types train_df) = _
    rw [score_coords_types]
  have htest : (try_k fit k weights train_df test_df).test_error
      = 1 - matchFraction (fit k weights (trainPairs train_df)) test_df := by
    show 1 - score (fit k weights (trainPairs train_df)) (coords test_df)
        (types test_df) = _
    rw [score_coords_types]
  have b1 := matchFraction_nonneg (fit k weights (trainPairs train_df)) train_df
  have b2 := matchFraction_le_one (fit k weights (trainPairs train_df)) train_df htr
  have b3 := matchFraction_nonneg (fit k weights (trainPairs train_df)) test_df
  have b4 := matchFraction_le_one (fit k weights (trainPairs train_df)) test_df hte
  refine ⟨htrain, htest, ?_, ?_, ?_, ?_⟩ <;>
    first
      | (rw [htrain]; linarith)
      | (rw [htest]; linarith)

/-- C4 (witness): the statement instantiated at K = 1, uniform weighting
and the two concrete one-row tables. -/
theorem C4_witness :
    (1 ≤ 1 ∧ genTbl.rows ≠ [] ∧ storTbl.rows ≠ []) ∧
    ((try_k constFit 1 Weights.uniform genTbl storTbl).train_error
       = 1 - matchFraction (constFit 1 Weights.uniform (trainPairs genTbl)) genTbl ∧
     (try_k constFit 1 Weights.uniform genTbl storTbl).test_error
       = 1 - matchFraction (constFit 1 Weights.uniform (trainPairs genTbl)) storTbl ∧
     0 ≤ (try_k constFit 1 Weights.uniform genTbl storTbl).train_error ∧
     (try_k constFit 1 Weights.uniform genTbl storTbl).train_error ≤ 1 ∧
     0 ≤ (try_k constFit 1 Weights.uniform genTbl storTbl).test_error ∧
     (try_k constFit 1 Weights.uniform genTbl storTbl).test_error ≤ 1) :=
  ⟨⟨le_refl 1, by decide, by decide⟩,
   C4_theorem constFit 1 Weights.uniform genTbl storTbl (le_refl 1)
     (by decide) (by decide)⟩

/-- C5: `try_k` has no side effect on its input tables: the post-state of
both tables equals the input state (the source body contains no assignment
to either dataframe, in particular no pred column is written). -/
theorem C5_theorem (fit : FitFn) (k : Nat) (weights : Weights)
    (train_df test_df : Table) :
    (try_k fit k weights train_df test_df).train_df = train_df ∧
    (try_k fit k weights train_df test_df).test_df = test_df :=
  ⟨rfl, rfl⟩

/-- C6: `predict_types` fits one classifier on the training-table pairs and
writes the pred column of each table to the predictions of that classifier
on the coordinates of that same table; the result does not depend on any
pre-existing pred column (it is overwritten). -/
theorem C6_theorem (fit : FitFn) (k : Nat) (weights : Weights)
    (train_df test_df : Table) :
    (predict_types fit k weights train_df test_df).train_df.pred
      = some ((coords train_df).map (fit k weights (trainPairs train_df))) ∧
    (predict_types fit k weights train_df test_df).test_df.pred
      = some ((coords test_df).map (fit k weights (trainPairs train_df))) ∧
    (∀ p q : Option (List Label),
       predict_types fit k weights { train_df with pred := p }
           { test_df with pred := q }
         = predict_types fit k weights train_df test_df) ∧
    (predict_types fit k weights train_df test_df).trace
      = [Effect.fitClassifier k weights (trainPairs train_df)] :=
  ⟨rfl, rfl, fun _ _ => rfl, rfl⟩

/-- C7: `geojson_predict_k` fits two independent classifiers, one on the
generation training table and one on the storage training table, and adds
the two predicted-type columns obtained by querying the respective
classifier at each feature representative point, row-aligned with the
unchanged input feature order. -/
theorem C7_theorem (fit : FitFn) (geo_df : GeoDf)
    (gen_train stor_train : Table) (k : Nat) (weights : Weights) :
    (geojson_predict_k fit geo_df gen_train stor_train k weights).geo_df.pred_gen
      = some (geo_df.features.map fun f =>
          fit k weights (trainPairs gen_train) f.center) ∧
    (geojson_predict_k fit geo_df gen_train stor_train k weights).geo_df.pred_stor
      = some (geo_df.features.map fun f =>
          fit k weights (trainPairs stor_train) f.center) ∧
    (geojson_predict_k fit geo_df gen_train stor_train k weights).geo_df.features
      = geo_df.features ∧
    (geojson_predict_k fit geo_df gen_train stor_train k weights).trace
      = [Effect.fitClassifier k weights (trainPairs gen_train),
         Effect.fitClassifier k weights (trainPairs stor_train)] :=
  ⟨rfl, rfl, rfl, rfl⟩

/-- C8: `predict_types` is idempotent: a second call on the tables the
first call produced yields exactly the same post-state (in particular the
same pred columns), because the classifier is a deterministic function of
the row data, which the first call left untouched. -/
theorem C8_theorem (fit : FitFn) (k : Nat) (weights : Weights)
    (train_df test_df : Table) :
    predict_types fit k weights
        (predict_types fit k weights train_df test_df).train_df
        (predict_types fit k weights train_df test_df).test_df
      = predict_types fit k weights train_df test_df :=
  rfl

/-- C9: `predict_types` modifies only the pred column: the row data of both
tables (the lat, lon and type columns) and hence the row counts are
unchanged. -/
theorem C9_theorem (fit : FitFn) (k : Nat) (weights : Weights)
    (train_df test_df : Table) :
    (predict_types fit k weights train_df test_df).train_df.rows
      = train_df.rows ∧
    (predict_types fit k weights train_df test_df).test_df.rows
      = test_df.rows ∧
    (predict_types fit k weights train_df test_df).train_df.rows.length
      = train_df.rows.length ∧
    (predict_types fit k weights train_df test_df).test_df.rows.length
      = test_df.rows.length :=
  ⟨rfl, rfl, rfl, rfl⟩

/-- C10: on the empty K list `try_k_range` returns the empty error table
(zero rows of the three-column row type), performs no classifier fit (empty
trace) and leaves both tables untouched. -/
theorem C10_theorem (fit : FitFn) (weights : Weights) (tr te : Table) :
    try_k_range fit [] weights tr te
      = { errors := [], train_df := tr, test_df := te, trace := [] } :=
  rfl

end ModelUtilities
